import Mathlib

/-!
Shallow embedding of the MariaDB charm (`src/charm.py`) for verification.

The charm is a single-threaded event handler collection.  Each Python
handler is translated to a Lean function; the ambient `StoredState`,
unit status, leadership flag, container (Pebble) collaborator and shell
executor become explicit parameters.  Machine effects (subprocess calls,
Pebble API calls) are modelled by explicit result values: a
`CalledProcessError` raised by a shell command is `ShellResult.err` with
the process output, an `ops.model.ModelError` raised by the Pebble API
is the `.error` branch of an `Except`.  A handler that lets an exception
escape (crash of the hook) is modelled by returning `.error`.
-/

namespace Mariadb

/-- Constant `SERVICE = "mariadb"` from charm.py. -/
def SERVICE : String := "mariadb"

/-- Constant `COMMAND` from charm.py. -/
def COMMAND : String := "/usr/local/bin/docker-entrypoint.sh mysqld"

/-- Constant `DB_BACKUP_PATH = "/data/db"` from charm.py. -/
def DB_BACKUP_PATH : String := "/data/db"

/-- Python `string.ascii_letters`. -/
def ascii_letters : String :=
  "abcdefghijklmnopqrstuvwxyzABCDEFGHIJKLMNOPQRSTUVWXYZ"

/-- Python `string.digits`. -/
def string_digits : String := "0123456789"

/-- The alphabet used by `_gen_root_password`:
`alphabet = string.ascii_letters + string.digits`. -/
def passwordAlphabet : List Char := (ascii_letters ++ string_digits).data

/-- Embedding of `MariadbCharm._gen_root_password`.  The Python code draws
16 independent uniform choices from `alphabet` via `secrets.choice`; the
random source is modelled as a function `choice : Nat → Nat` giving the
raw draw for each position, reduced modulo the alphabet size exactly as
a uniform choice of an element is. -/
def _gen_root_password (choice : Nat → Nat) : String :=
  String.mk ((List.range 16).map fun i =>
    passwordAlphabet.getD (choice i % passwordAlphabet.length) 'a')

/-- The persisted `StoredState` contents after `__init__` has run
(`database`, `ports`, `root_password` are all set by `set_default`). -/
structure Stored where
  database : List (String × String)
  ports : List Int
  root_password : String
deriving DecidableEq, Repr

/-- The persisted `StoredState` contents as found at the start of
`__init__`: each field is `none` on the very first construction of the
charm and `some` of the persisted value on every later construction. -/
structure StoredRaw where
  database : Option (List (String × String))
  ports : Option (List Int)
  root_password : Option String
deriving DecidableEq, Repr

/-- Embedding of the `set_default` calls in `MariadbCharm.__init__`:
`set_default` assigns a field only when it is not already present.
`configPort` is `self.model.config['port']` and `fresh` is the value of
the eagerly evaluated argument `self._gen_root_password()`, which is
discarded when `root_password` is already stored. -/
def charm_init (raw : StoredRaw) (configPort : Int) (fresh : String) : Stored :=
  { database := raw.database.getD []
    ports := raw.ports.getD [configPort]
    root_password := raw.root_password.getD fresh }

/-- Persisting a `Stored` value: what the next charm construction sees. -/
def toRaw (s : Stored) : StoredRaw :=
  { database := some s.database
    ports := some s.ports
    root_password := some s.root_password }

/-- The `ops.model` status values used by the charm.  `active ""` is
`ActiveStatus()` (no message). -/
inductive Status where
  | active (msg : String)
  | waiting (msg : String)
  | maintenance (msg : String)
  | blocked (msg : String)
deriving DecidableEq, Repr

/-- Whether a status is a Blocked status. -/
def isBlocked : Status → Bool
  | .blocked _ => true
  | _ => false

/-- The mutable unit-level state a handler can touch: the persisted
stored state and `self.unit.status`. -/
structure CharmState where
  stored : Stored
  unitStatus : Status
deriving DecidableEq, Repr

/-- Embedding of `MariadbCharm._is_ready`.  The query
`self.unit.get_container(SERVICE).get_service(SERVICE).is_running()` is
modelled by an `Except String Bool`: `.error e` when the Pebble API
raises `ModelError` (for example service not found), `.ok b` with `b`
the `is_running()` answer otherwise.  The `except ModelError` clause
returns `False`. -/
def _is_ready (q : Except String Bool) : Bool :=
  match q with
  | .ok b => b
  | .error _ => false

/-- Embedding of `MariadbCharm._on_update_status`. -/
def _on_update_status (isLeader : Bool) (q : Except String Bool)
    (s : CharmState) : CharmState :=
  if !isLeader then
    { s with unitStatus := Status.active "" }
  else if !(_is_ready q) then
    { s with unitStatus := Status.waiting "service not ready yet" }
  else
    { s with unitStatus := Status.active "" }

/-- Embedding of `MariadbCharm._on_config_changed`: stores
`[self.model.config['port']]` into `self._stored.ports` and then calls
`self._on_update_status(event)`.  The port value is stored with no
validation of any kind. -/
def _on_config_changed (port : Int) (isLeader : Bool)
    (q : Except String Bool) (s : CharmState) : CharmState :=
  _on_update_status isLeader q
    { s with stored := { s.stored with ports := [port] } }

/-- One Pebble service entry of the layer built in
`_on_mariadb_pebble_ready`. -/
structure ServiceSpec where
  override : String
  summary : String
  command : String
  startup : String
  environment : List (String × String)
deriving DecidableEq, Repr

/-- The Pebble layer dict built in `_on_mariadb_pebble_ready`. -/
structure PebbleLayer where
  summary : String
  description : String
  services : List (String × ServiceSpec)
deriving DecidableEq, Repr

/-- The `pebble_layer` dict literal from `_on_mariadb_pebble_ready`,
as a function of `self._stored.root_password`. -/
def pebble_layer (root_password : String) : PebbleLayer :=
  { summary := "mariadb layer"
    description := "pebble config layer for mariadb"
    services := [("mariadb",
      { override := "replace"
        summary := "mariadb"
        command := COMMAND
        startup := "enabled"
        environment := [("MYSQL_ROOT_PASSWORD", root_password)] })] }

/-- All environment entries of a layer's services. -/
def layer_env (l : PebbleLayer) : List (String × String) :=
  (l.services.map (fun p => p.2.environment)).flatten

/-- The workload container collaborator: `add_layer` (label, layer,
combine) and `autostart`, each able to raise (`.error`). -/
structure Container where
  add_layer : String → PebbleLayer → Bool → Except String Unit
  autostart : Except String Unit

/-- Embedding of `MariadbCharm._on_mariadb_pebble_ready`.  There is no
try/except in the source: an exception from `add_layer` or `autostart`
escapes the handler, modelled by the `.error` branch.  On success the
handler returns the new state together with the layer it applied. -/
def _on_mariadb_pebble_ready (c : Container) (s : CharmState) :
    Except String (CharmState × PebbleLayer) :=
  match c.add_layer "mariadb" (pebble_layer s.stored.root_password) true with
  | .error e => .error e
  | .ok _ =>
    match c.autostart with
    | .error e => .error e
    | .ok _ => .ok ({ s with unitStatus := Status.active "" },
                    pebble_layer s.stored.root_password)

/-- Embedding of `MariadbCharm._on_database_relation_changed`: writes
`root-password = self._stored.root_password` into the relation data bag
of the unit. -/
def _on_database_relation_changed (s : Stored) : String × String :=
  ("root-password", s.root_password)

/-- Result of one `subprocess.check_output(..., shell=True)` call:
`.ok out` on exit code 0, `.err out` for a `CalledProcessError` carrying
`e.output`. -/
inductive ShellResult where
  | ok (output : String)
  | err (output : String)
deriving DecidableEq, Repr

/-- The shell executor: command line to result. -/
abbrev Shell := String → ShellResult

/-- What `_set_fail_message` does with the action event: the argument
passed to `event.fail(...)` and the `fail` entry of the params dict
passed to `event.set_results(...)`. -/
structure FailReport where
  failMessage : String
  resultsFail : String
deriving DecidableEq, Repr

/-- Embedding of `MariadbCharm._set_fail_message`.  `failParam` is
`event.params['fail']` (`none` for Python `None`); when it is not `None`
the caught error message `msg` is discarded. -/
def _set_fail_message (failParam : Option String) (msg : String) :
    FailReport :=
  match failParam with
  | none => { failMessage := msg, resultsFail := msg }
  | some v => { failMessage := v, resultsFail := v }

/-- Observable outcome of one backup / list / restore action handler:
the unit state afterwards, the shell commands executed in order, the
`set_results` message on success, and the fail report on action
failure. -/
structure ActionOutcome where
  state : CharmState
  commands : List String
  results : Option String
  failReport : Option FailReport
deriving DecidableEq, Repr

/-- `backup_name = "{}/{}-backup.sql.gz".format(DB_BACKUP_PATH, date_str)`. -/
def backup_name (date_str : String) : String :=
  DB_BACKUP_PATH ++ "/" ++ date_str ++ "-backup.sql.gz"

/-- The `backup_cmd` string of `_on_backup_action`, after Python resolves
the line continuation inside the triple-quoted format string: the
credential, address and backup path are interpolated verbatim. -/
def backup_cmd (password ip name : String) : String :=
  "mysqldump -uroot -p" ++ password ++ " -h" ++ ip ++
    " --single-transaction                     --all-databases | gzip - > " ++
    name ++ "\n                    "

/-- The mkdir command of `_on_backup_action`:
`"mkdir -p {}".format(DB_BACKUP_PATH)`. -/
def mkdir_cmd : String := "mkdir -p " ++ DB_BACKUP_PATH

/-- Embedding of `MariadbCharm._on_backup_action`.  The `mkdir` call is
outside the try block, so its failure escapes the handler (`.error`).
The mysqldump failure is caught and routed through `_set_fail_message`.
`date_str` is the wall-clock timestamp, `ip` the `_get_ip()` result. -/
def _on_backup_action (shell : Shell) (failParam : Option String)
    (date_str ip : String) (s : CharmState) : Except String ActionOutcome :=
  match shell mkdir_cmd with
  | .err out => .error out
  | .ok _ =>
    match shell (backup_cmd s.stored.root_password ip (backup_name date_str)) with
    | .ok _ =>
      .ok { state := s
            commands := [mkdir_cmd,
              backup_cmd s.stored.root_password ip (backup_name date_str)]
            results := some ("backup " ++ backup_name date_str)
            failReport := none }
    | .err out =>
      .ok { state := s
            commands := [mkdir_cmd,
              backup_cmd s.stored.root_password ip (backup_name date_str)]
            results := none
            failReport := some (_set_fail_message failParam out) }

/-- The `ls` command of `_on_list_backup`:
`"ls {}".format(DB_BACKUP_PATH)`. -/
def list_cmd : String := "ls " ++ DB_BACKUP_PATH

/-- Embedding of `MariadbCharm._on_list_backup`.  On success the Python
code reports the line-split output; the raw output is kept here.  On
`CalledProcessError` the failure goes through `_set_fail_message`. -/
def _on_list_backup (shell : Shell) (failParam : Option String)
    (s : CharmState) : ActionOutcome :=
  match shell list_cmd with
  | .ok out =>
    { state := s
      commands := [list_cmd]
      results := some ("backup files: " ++ out)
      failReport := none }
  | .err out =>
    { state := s
      commands := [list_cmd]
      results := none
      failReport := some (_set_fail_message failParam out) }

/-- The restore command of `_on_restore_action`:
`"gunzip -c {}| mysql -uroot -p{} -h{}".format(restore_file, password, ip)`has
all three values interpolated verbatim. -/
def restore_cmd (restore_file password ip : String) : String :=
  "gunzip -c " ++ restore_file ++ "| mysql -uroot -p" ++ password ++
    " -h" ++ ip

/-- One fold step of Python `max(..., key=os.path.getctime)`: the
accumulator is replaced only when the candidate's key is strictly
greater, so the first element attaining the maximum wins. -/
def pyMaxStep (acc y : String × Nat) : String × Nat :=
  if acc.2 < y.2 then y else acc

/-- Python `max(list_of_files, key=os.path.getctime)` on the directory
listing (path, ctime), `none` for the empty list where Python raises
`ValueError`. -/
def py_max (files : List (String × Nat)) : Option (String × Nat) :=
  match files with
  | [] => none
  | x :: xs => some (xs.foldl pyMaxStep x)

/-- The shared tail of `_on_restore_action` once the restore file is
chosen: run the pipeline, report success or route the error through
`_set_fail_message`. -/
def restore_run (shell : Shell) (failParam : Option String)
    (file ip : String) (s : CharmState) : ActionOutcome :=
  match shell (restore_cmd file s.stored.root_password ip) with
  | .ok _ =>
    { state := s
      commands := [restore_cmd file s.stored.root_password ip]
      results := some ("restored " ++ file)
      failReport := none }
  | .err out =>
    { state := s
      commands := [restore_cmd file s.stored.root_password ip]
      results := none
      failReport := some (_set_fail_message failParam out) }

/-- Embedding of `MariadbCharm._on_restore_action`.  `fileParam` is the
`action-get path` answer (empty string for an absent identifier),
`files` the `glob.glob` directory listing with ctimes in enumeration
order.  With an absent identifier and an empty listing, Python's
`max([])` raises `ValueError`, which the `except
subprocess.CalledProcessError` clause does not catch: the handler
crashes (`.error`) before any shell command runs. -/
def _on_restore_action (shell : Shell) (failParam : Option String)
    (fileParam : String) (files : List (String × Nat)) (ip : String)
    (s : CharmState) : Except String ActionOutcome :=
  if fileParam.length = 0 then
    match py_max files with
    | none => .error "ValueError: max() arg is an empty sequence"
    | some best => .ok (restore_run shell failParam best.1 ip s)
  else
    .ok (restore_run shell failParam (DB_BACKUP_PATH ++ "/" ++ fileParam) ip s)

/-! ## Helper lemmas -/

/-- `List.getD` at an in-range index is a member of the list. -/
lemma getD_mem_of_lt (l : List Char) (i : Nat) (d : Char)
    (h : i < l.length) : l.getD i d ∈ l := by
  rw [List.getD_eq_getElem?_getD, List.getElem?_eq_getElem h, Option.getD_some]
  exact List.getElem_mem h

/-! ## Claims -/

/-- C1: the root credential is generated at most once per unit lifetime.
Once `root_password` is stored, every later charm construction keeps the
identical string (the freshly generated argument is discarded by
`set_default`); the process-supervision descriptor built on
workload-ready binds `MYSQL_ROOT_PASSWORD` to exactly the stored value,
and the consumer-relation handler publishes exactly the stored value;
the other handlers never change the stored credential. -/
theorem c1_credential_generated_once (raw : StoredRaw) (p p2 port : Int)
    (f f2 : String) (isLeader : Bool) (q : Except String Bool)
    (c : Mariadb.Container) (s : Mariadb.CharmState) :
    (Mariadb.charm_init (Mariadb.toRaw (Mariadb.charm_init raw p f)) p2 f2).root_password
        = (Mariadb.charm_init raw p f).root_password
    ∧ Mariadb._on_database_relation_changed (Mariadb.charm_init raw p f)
        = ("root-password", (Mariadb.charm_init raw p f).root_password)
    ∧ List.lookup "MYSQL_ROOT_PASSWORD"
        (Mariadb.layer_env (Mariadb.pebble_layer (Mariadb.charm_init raw p f).root_password))
        = some (Mariadb.charm_init raw p f).root_password
    ∧ (Mariadb._on_config_changed port isLeader q s).stored.root_password
        = s.stored.root_password
    ∧ (Mariadb._on_update_status isLeader q s).stored.root_password
        = s.stored.root_password
    ∧ ((∃ e, Mariadb._on_mariadb_pebble_ready c s = .error e)
        ∨ Mariadb._on_mariadb_pebble_ready c s
            = .ok ({ s with unitStatus := Mariadb.Status.active "" },
                   Mariadb.pebble_layer s.stored.root_password)) := by
  refine ⟨by simp [Mariadb.charm_init, Mariadb.toRaw], rfl, by rfl, ?_, ?_, ?_⟩
  · unfold Mariadb._on_config_changed Mariadb._on_update_status
    by_cases hL : isLeader <;> simp [hL] <;>
      by_cases hR : Mariadb._is_ready q <;> simp [hR]
  · unfold Mariadb._on_update_status
    by_cases hL : isLeader <;> simp [hL] <;>
      by_cases hR : Mariadb._is_ready q <;> simp [hR]
  · unfold Mariadb._on_mariadb_pebble_ready
    rcases h1 : c.add_layer "mariadb"
        (Mariadb.pebble_layer s.stored.root_password) true with e | u
    · exact Or.inl ⟨e, by simp [h1]⟩
    · rcases h2 : c.autostart with e | u2
      · exact Or.inl ⟨e, by simp [h1, h2]⟩
      · exact Or.inr (by simp [h1, h2])

/-- C6: on update-status, a non-leader unit becomes Active directly; a
leader whose service-status query raises becomes Waiting with the fixed
message "service not ready yet" (the raw error `e` never appears); a
leader whose service is running becomes Active. -/
theorem c6_update_status_transitions (q : Except String Bool) (e : String)
    (s : Mariadb.CharmState) :
    (Mariadb._on_update_status false q s).unitStatus = Mariadb.Status.active ""
    ∧ (Mariadb._on_update_status true (.error e) s).unitStatus
        = Mariadb.Status.waiting "service not ready yet"
    ∧ (Mariadb._on_update_status true (.ok true) s).unitStatus
        = Mariadb.Status.active "" :=
  ⟨rfl, rfl, rfl⟩

/-- C9: `_gen_root_password` always produces a string of exactly 16
characters drawn from the 62-symbol alphanumeric alphabet, so the space
of outputs has size `62 ^ 16 ≥ 2 ^ 90` (at least 90 bits of entropy);
the function is total, so generation cannot fail. -/
theorem c9_gen_root_password_entropy (choice : Nat → Nat) :
    (Mariadb._gen_root_password choice).length = 16
    ∧ (∀ ch ∈ (Mariadb._gen_root_password choice).data,
        ch ∈ Mariadb.passwordAlphabet)
    ∧ Mariadb.passwordAlphabet.length = 62
    ∧ 2 ^ 90 ≤ Mariadb.passwordAlphabet.length ^ 16 := by
  refine ⟨by simp [Mariadb._gen_root_password, String.length], ?_,
    by decide, by decide⟩
  intro ch hch
  simp only [Mariadb._gen_root_password] at hch
  obtain ⟨i, _, rfl⟩ := List.mem_map.mp hch
  exact Mariadb.getD_mem_of_lt _ _ _
    (Nat.mod_lt _ (by decide : 0 < Mariadb.passwordAlphabet.length))

/-- Witness for C9 at the constant choice function. -/
theorem c9_gen_root_password_entropy_witness :
    (Mariadb._gen_root_password (fun _ => 0)).length = 16
    ∧ ('a' : Char) ∈ Mariadb.passwordAlphabet :=
  ⟨(c9_gen_root_password_entropy (fun _ => 0)).1,
   (c9_gen_root_password_entropy (fun _ => 0)).2.1 'a' (by decide)⟩

/-- C10: in `_set_fail_message`, a pre-supplied non-None `fail`
parameter (including the empty string) is reported to the invoker and
the caught error message is discarded; the caught message is reported
only when the `fail` parameter is None. -/
theorem c10_preset_fail_param_wins (v msg : String) :
    Mariadb._set_fail_message (some v) msg
        = { failMessage := v, resultsFail := v }
    ∧ Mariadb._set_fail_message (some "") msg
        = { failMessage := "", resultsFail := "" }
    ∧ Mariadb._set_fail_message none msg
        = { failMessage := msg, resultsFail := msg } :=
  ⟨rfl, rfl, rfl⟩

/-- C2 counterexample: the charm accepts a configuration-changed event
with port 0, which is outside [1, 65535]: the out-of-range port is
stored in `ports` and the unit status becomes Active (here on a
non-leader unit), not Blocked; no ConfigError is signalled. -/
theorem c2_counterexample :
    Mariadb._on_config_changed 0 false (.ok true)
        { stored := { database := [], ports := [3306], root_password := "pw" }
          unitStatus := Mariadb.Status.maintenance "m" }
      = { stored := { database := [], ports := [0], root_password := "pw" }
          unitStatus := Mariadb.Status.active "" }
    ∧ Mariadb.isBlocked (Mariadb._on_config_changed 0 false (.ok true)
        { stored := { database := [], ports := [3306], root_password := "pw" }
          unitStatus := Mariadb.Status.maintenance "m" }).unitStatus
      = false :=
  ⟨rfl, rfl⟩

/-- C2 amended: `_on_config_changed` performs no validation at all: for
every port value, in or out of [1, 65535], the value is stored in
`ports` unchanged, the handler never crashes (it is total), never
signals a ConfigError, and never sets a Blocked status. -/
theorem c2_amended_no_port_validation (port : Int) (isLeader : Bool)
    (q : Except String Bool) (s : Mariadb.CharmState) :
    (Mariadb._on_config_changed port isLeader q s).stored.ports = [port]
    ∧ Mariadb.isBlocked
        (Mariadb._on_config_changed port isLeader q s).unitStatus
      = false := by
  unfold Mariadb._on_config_changed Mariadb._on_update_status
  by_cases hL : isLeader <;>
    simp [hL, Mariadb.isBlocked] <;>
    by_cases hR : Mariadb._is_ready q <;>
    simp [hR, Mariadb.isBlocked]

/-- C3 counterexample: restore with an absent identifier (empty `path`)
on an empty backup store does not fail with a NoBackupAvailable error:
Python's `max([])` raises `ValueError`, which is not caught by the
`except subprocess.CalledProcessError` clause, so the hook crashes. -/
theorem c3_counterexample :
    Mariadb._on_restore_action (fun _ => Mariadb.ShellResult.ok "") none ""
        [] "10.0.0.1"
        { stored := { database := [], ports := [3306], root_password := "pw" }
          unitStatus := Mariadb.Status.active "" }
      = .error "ValueError: max() arg is an empty sequence" :=
  rfl

/-- C3 amended: restore with an absent identifier on an empty backup
store crashes with an uncaught ValueError, for every shell executor,
fail parameter, address and state; the result does not depend on the
shell executor, so the restore tool is never invoked. -/
theorem c3_amended_empty_store_crashes (shell : Mariadb.Shell)
    (failParam : Option String) (ip : String) (s : Mariadb.CharmState) :
    Mariadb._on_restore_action shell failParam "" [] ip s
      = .error "ValueError: max() arg is an empty sequence" :=
  rfl

/-- C5 counterexample: when the collaborator's `add_layer` raises, the
workload-ready handler does not set a Blocked status: the exception
propagates out of the handler (the hook crashes) and the unit state is
untouched. -/
theorem c5_counterexample :
    Mariadb._on_mariadb_pebble_ready
        { add_layer := fun _ _ _ => .error "connection failed"
          autostart := .ok () }
        { stored := { database := [], ports := [3306], root_password := "pw" }
          unitStatus := Mariadb.Status.waiting "w" }
      = .error "connection failed" :=
  rfl

/-- C5 amended: on workload-ready the handler builds the layer from the
stored credential and applies it; when both collaborator calls succeed
the status becomes Active; when either call raises, the exception
propagates out of the handler unchanged (no Blocked status, no catch). -/
theorem c5_amended_pebble_ready (c : Mariadb.Container)
    (s : Mariadb.CharmState) :
    (c.add_layer "mariadb" (Mariadb.pebble_layer s.stored.root_password) true
        = .ok ()
      → c.autostart = .ok ()
      → Mariadb._on_mariadb_pebble_ready c s
          = .ok ({ s with unitStatus := Mariadb.Status.active "" },
                 Mariadb.pebble_layer s.stored.root_password))
    ∧ (∀ e,
        c.add_layer "mariadb" (Mariadb.pebble_layer s.stored.root_password) true
          = .error e
        → Mariadb._on_mariadb_pebble_ready c s = .error e)
    ∧ (∀ e,
        c.add_layer "mariadb" (Mariadb.pebble_layer s.stored.root_password) true
          = .ok ()
        → c.autostart = .error e
        → Mariadb._on_mariadb_pebble_ready c s = .error e) := by
  refine ⟨fun h1 h2 => ?_, fun e h1 => ?_, fun e h1 h2 => ?_⟩ <;>
    unfold Mariadb._on_mariadb_pebble_ready <;> simp [h1]
  · simp [h2]
  · simp [h2]

/-- Witness for C5 amended: a collaborator that succeeds yields Active,
applied at a concrete container and state. -/
theorem c5_amended_pebble_ready_witness :
    Mariadb._on_mariadb_pebble_ready
        { add_layer := fun _ _ _ => .ok (), autostart := .ok () }
        { stored := { database := [], ports := [3306], root_password := "pw" }
          unitStatus := Mariadb.Status.waiting "w" }
      = .ok ({ stored := { database := [], ports := [3306], root_password := "pw" }
               unitStatus := Mariadb.Status.active "" },
             Mariadb.pebble_layer "pw") :=
  (c5_amended_pebble_ready
    { add_layer := fun _ _ _ => .ok (), autostart := .ok () }
    { stored := { database := [], ports := [3306], root_password := "pw" }
      unitStatus := Mariadb.Status.waiting "w" }).1 rfl rfl

/-- C4 counterexample: the shell commands perform no quoting or
escaping.  A credential containing the payload `; rm -rf /tmp` (and a
path containing the same payload) reaches the `shell=True` command line
verbatim, and the produced command contains no single quote, double
quote or backslash anywhere, so the payload is live shell syntax. -/
theorem c4_counterexample :
    (("; rm -rf /tmp").data <:+:
      (Mariadb.backup_cmd "p; rm -rf /tmp" "10.0.0.1"
        "/data/db/x.sql.gz").data)
    ∧ ((Mariadb.backup_cmd "p; rm -rf /tmp" "10.0.0.1"
        "/data/db/x.sql.gz").data.all fun c =>
          !(c == Char.ofNat 39 || c == Char.ofNat 34 || c == Char.ofNat 92))
      = true
    ∧ (("; rm -rf /tmp").data <:+:
      (Mariadb.restore_cmd "x; rm -rf /tmp" "pw" "10.0.0.1").data)
    ∧ ((Mariadb.restore_cmd "x; rm -rf /tmp" "pw" "10.0.0.1").data.all
        fun c =>
          !(c == Char.ofNat 39 || c == Char.ofNat 34 || c == Char.ofNat 92))
      = true := by
  refine ⟨by decide, by decide, by decide, by decide⟩

/-- C4 amended: no quoting or escaping is applied anywhere: the
credential and the file paths are interpolated verbatim (as contiguous
substrings) into the backup and restore command lines, so any value
containing shell metacharacters would be injected; the only mitigation
is that the generated root credential consists of alphanumeric
characters exclusively. -/
theorem c4_amended_verbatim_interpolation (password ip name fileP : String)
    (choice : Nat → Nat) :
    (∃ pre post, (Mariadb.backup_cmd password ip name).data
        = pre ++ password.data ++ post)
    ∧ (∃ pre post, (Mariadb.backup_cmd password ip name).data
        = pre ++ name.data ++ post)
    ∧ (∃ pre post, (Mariadb.restore_cmd fileP password ip).data
        = pre ++ password.data ++ post)
    ∧ (∃ pre post, (Mariadb.restore_cmd fileP password ip).data
        = pre ++ fileP.data ++ post)
    ∧ ((Mariadb._gen_root_password choice).data.all fun c => c.isAlphanum)
      = true := by
  refine ⟨?_, ?_, ?_, ?_, ?_⟩
  · exact ⟨("mysqldump -uroot -p").data,
      (" -h" ++ ip ++
        " --single-transaction                     --all-databases | gzip - > "
        ++ name ++ "\n                    ").data,
      by simp [Mariadb.backup_cmd, String.data_append, List.append_assoc]⟩
  · exact ⟨("mysqldump -uroot -p" ++ password ++ " -h" ++ ip ++
        " --single-transaction                     --all-databases | gzip - > ").data,
      ("\n                    ").data,
      by simp [Mariadb.backup_cmd, String.data_append, List.append_assoc]⟩
  · exact ⟨("gunzip -c " ++ fileP ++ "| mysql -uroot -p").data,
      (" -h" ++ ip).data,
      by simp [Mariadb.restore_cmd, String.data_append, List.append_assoc]⟩
  · exact ⟨("gunzip -c ").data,
      ("| mysql -uroot -p" ++ password ++ " -h" ++ ip).data,
      by simp [Mariadb.restore_cmd, String.data_append, List.append_assoc]⟩
  · have halpha : ∀ c ∈ Mariadb.passwordAlphabet, c.isAlphanum = true := by
      decide
    simp only [List.all_eq_true]
    intro c hc
    simp only [Mariadb._gen_root_password] at hc
    obtain ⟨i, _, rfl⟩ := List.mem_map.mp hc
    exact halpha _ (Mariadb.getD_mem_of_lt _ _ _
      (Nat.mod_lt _ (by decide : 0 < Mariadb.passwordAlphabet.length)))

/-- C7 counterexample: when the backup tool exits non-zero with
diagnostic output "diag" but the action was invoked with a pre-supplied
`fail` parameter, the failure reported to the invoker is the
pre-supplied value, not the tool's diagnostic output. -/
theorem c7_counterexample :
    Mariadb._on_backup_action
        (fun cmd => if cmd = Mariadb.mkdir_cmd
          then Mariadb.ShellResult.ok "" else Mariadb.ShellResult.err "diag")
        (some "preset") "20240101-000000" "10.0.0.1"
        { stored := { database := [], ports := [3306], root_password := "pw" }
          unitStatus := Mariadb.Status.active "" }
      = .ok { state :=
                { stored := { database := [], ports := [3306],
                              root_password := "pw" }
                  unitStatus := Mariadb.Status.active "" }
              commands := [Mariadb.mkdir_cmd,
                Mariadb.backup_cmd "pw" "10.0.0.1"
                  (Mariadb.backup_name "20240101-000000")]
              results := none
              failReport := some { failMessage := "preset",
                                   resultsFail := "preset" } } :=
  rfl

/-- C7 amended: whenever the backup, list-backup or restore shell
operation exits non-zero, the action reports a structured failure whose
message is the tool's diagnostic output when the pre-supplied `fail`
parameter is None (and the pre-supplied value otherwise), and the unit
state — including its externally visible status — is left unchanged. -/
theorem c7_amended_failure_reporting (shell : Mariadb.Shell)
    (failParam : Option String) (d ip out m : String)
    (s : Mariadb.CharmState) :
    (shell Mariadb.mkdir_cmd = .ok m
      → shell (Mariadb.backup_cmd s.stored.root_password ip
          (Mariadb.backup_name d)) = .err out
      → Mariadb._on_backup_action shell failParam d ip s
          = .ok { state := s
                  commands := [Mariadb.mkdir_cmd,
                    Mariadb.backup_cmd s.stored.root_password ip
                      (Mariadb.backup_name d)]
                  results := none
                  failReport :=
                    some (Mariadb._set_fail_message failParam out) })
    ∧ (shell Mariadb.list_cmd = .err out
      → Mariadb._on_list_backup shell failParam s
          = { state := s
              commands := [Mariadb.list_cmd]
              results := none
              failReport := some (Mariadb._set_fail_message failParam out) })
    ∧ (∀ file,
        shell (Mariadb.restore_cmd file s.stored.root_password ip) = .err out
      → Mariadb.restore_run shell failParam file ip s
          = { state := s
              commands := [Mariadb.restore_cmd file s.stored.root_password ip]
              results := none
              failReport :=
                some (Mariadb._set_fail_message failParam out) }) := by
  refine ⟨fun h1 h2 => ?_, fun h => ?_, fun file h => ?_⟩
  · unfold Mariadb._on_backup_action
    simp [h1, h2]
  · unfold Mariadb._on_list_backup
    simp [h]
  · unfold Mariadb.restore_run
    simp [h]

/-- Witness for C7 amended at a concrete failing shell with no preset
fail parameter: the tool output is the reported message. -/
theorem c7_amended_failure_reporting_witness :
    Mariadb._on_backup_action
        (fun cmd => if cmd = Mariadb.mkdir_cmd
          then Mariadb.ShellResult.ok "" else Mariadb.ShellResult.err "diag")
        none "20240101-000000" "10.0.0.1"
        { stored := { database := [], ports := [3306], root_password := "pw" }
          unitStatus := Mariadb.Status.active "" }
      = .ok { state :=
                { stored := { database := [], ports := [3306],
                              root_password := "pw" }
                  unitStatus := Mariadb.Status.active "" }
              commands := [Mariadb.mkdir_cmd,
                Mariadb.backup_cmd "pw" "10.0.0.1"
                  (Mariadb.backup_name "20240101-000000")]
              results := none
              failReport := some (Mariadb._set_fail_message none "diag") } :=
  (c7_amended_failure_reporting
    (fun cmd => if cmd = Mariadb.mkdir_cmd
      then Mariadb.ShellResult.ok "" else Mariadb.ShellResult.err "diag")
    none "20240101-000000" "10.0.0.1" "diag" ""
    { stored := { database := [], ports := [3306], root_password := "pw" }
      unitStatus := Mariadb.Status.active "" }).1 (by decide) (by decide)

/-- The fold underlying `py_max` returns the first element of `x :: xs`
attaining the maximal key: the list decomposes around the result with
every earlier element strictly smaller, and the result is an upper
bound of all keys. -/
lemma foldl_pyMaxStep_spec (xs : List (String × Nat)) :
    ∀ x : String × Nat, ∃ l₁ l₂,
      x :: xs = l₁ ++ (xs.foldl Mariadb.pyMaxStep x) :: l₂
      ∧ (∀ y ∈ l₁, y.2 < (xs.foldl Mariadb.pyMaxStep x).2)
      ∧ (∀ y ∈ x :: xs, y.2 ≤ (xs.foldl Mariadb.pyMaxStep x).2) := by
  induction xs with
  | nil =>
    intro x
    exact ⟨[], [], rfl, by simp, by simp⟩
  | cons y ys ih =>
    intro x
    rw [List.foldl_cons]
    by_cases h : x.2 < y.2
    · have hst : Mariadb.pyMaxStep x y = y := by
        simp [Mariadb.pyMaxStep, h]
      rw [hst]
      obtain ⟨l₁, l₂, hdec, hlt, hle⟩ := ih y
      have hyb : y.2 ≤ (ys.foldl Mariadb.pyMaxStep y).2 :=
        hle y (List.mem_cons_self y ys)
      refine ⟨x :: l₁, l₂, ?_, ?_, ?_⟩
      · rw [List.cons_append, ← hdec]
      · intro z hz
        rcases List.mem_cons.mp hz with rfl | hz'
        · exact lt_of_lt_of_le h hyb
        · exact hlt z hz'
      · intro z hz
        rcases List.mem_cons.mp hz with rfl | hz'
        · exact le_of_lt (lt_of_lt_of_le h hyb)
        · exact hle z hz'
    · have hst : Mariadb.pyMaxStep x y = x := by
        simp [Mariadb.pyMaxStep, h]
      rw [hst]
      have hyx : y.2 ≤ x.2 := Nat.le_of_not_lt h
      obtain ⟨l₁, l₂, hdec, hlt, hle⟩ := ih x
      cases l₁ with
      | nil =>
        simp only [List.nil_append] at hdec
        have hr : ys.foldl Mariadb.pyMaxStep x = x := by
          injection hdec with h1 _
          exact h1.symm
        refine ⟨[], y :: l₂, ?_, by simp, ?_⟩
        · simp only [List.nil_append]
          injection hdec with _ h2
          rw [hr, h2]
        · intro z hz
          rcases List.mem_cons.mp hz with rfl | hz'
          · exact hle z (List.mem_cons_self z ys)
          · rcases List.mem_cons.mp hz' with rfl | hz''
            · rw [hr]; exact hyx
            · exact hle z (List.mem_cons_of_mem x hz'')
      | cons a l₁' =>
        rw [List.cons_append] at hdec
        injection hdec with h1 h2
        subst h1
        have hxlt : x.2 < (ys.foldl Mariadb.pyMaxStep x).2 :=
          hlt x (List.mem_cons_self x l₁')
        refine ⟨x :: y :: l₁', l₂, ?_, ?_, ?_⟩
        · rw [List.cons_append, List.cons_append, ← h2]
        · intro z hz
          rcases List.mem_cons.mp hz with rfl | hz'
          · exact hxlt
          · rcases List.mem_cons.mp hz' with rfl | hz''
            · exact lt_of_le_of_lt hyx hxlt
            · exact hlt z (List.mem_cons_of_mem x hz'')
        · intro z hz
          rcases List.mem_cons.mp hz with rfl | hz'
          · exact le_of_lt hxlt
          · rcases List.mem_cons.mp hz' with rfl | hz''
            · exact le_trans hyx (le_of_lt hxlt)
            · exact hle z (List.mem_cons_of_mem x hz'')

/-- C8 counterexample: on two records with identical creation times the
selection is not a function of the identifiers at all, so it is not the
lexical tie-break the claim states: the same set of records listed in
the two different enumeration orders yields two different selections
(Python's `max` keeps the first maximal element it meets). -/
theorem c8_counterexample :
    Mariadb.py_max [("/data/db/a", 5), ("/data/db/b", 5)]
      = some ("/data/db/a", 5)
    ∧ Mariadb.py_max [("/data/db/b", 5), ("/data/db/a", 5)]
      = some ("/data/db/b", 5)
    ∧ ("/data/db/a" : String) ≠ "/data/db/b"
    ∧ Mariadb._on_restore_action (fun _ => Mariadb.ShellResult.ok "") none
        "" [("/data/db/a", 5), ("/data/db/b", 5)] "10.0.0.1"
        { stored := { database := [], ports := [3306], root_password := "pw" }
          unitStatus := Mariadb.Status.active "" }
      = .ok { state :=
                { stored := { database := [], ports := [3306],
                              root_password := "pw" }
                  unitStatus := Mariadb.Status.active "" }
              commands := [Mariadb.restore_cmd "/data/db/a" "pw" "10.0.0.1"]
              results := some "restored /data/db/a"
              failReport := none } :=
  ⟨rfl, rfl, by decide, rfl⟩

/-- C8 amended: restore with an absent identifier on a non-empty store
selects the record with the maximal creation time; when several records
share it, the tie is broken by enumeration order of the directory
listing — the first maximal record in the listing is chosen — and the
restore pipeline is run on exactly that record. -/
theorem c8_amended_first_maximum (x : String × Nat)
    (xs : List (String × Nat)) :
    ∃ m, Mariadb.py_max (x :: xs) = some m
      ∧ (∃ l₁ l₂, x :: xs = l₁ ++ m :: l₂ ∧ ∀ y ∈ l₁, y.2 < m.2)
      ∧ (∀ y ∈ x :: xs, y.2 ≤ m.2)
      ∧ (∀ (shell : Mariadb.Shell) (failParam : Option String)
           (ip : String) (s : Mariadb.CharmState),
          Mariadb._on_restore_action shell failParam "" (x :: xs) ip s
            = .ok (Mariadb.restore_run shell failParam m.1 ip s)) := by
  obtain ⟨l₁, l₂, hdec, hlt, hle⟩ := foldl_pyMaxStep_spec xs x
  refine ⟨xs.foldl Mariadb.pyMaxStep x, rfl, ⟨l₁, l₂, hdec, hlt⟩, hle, ?_⟩
  intro shell failParam ip s
  simp [Mariadb._on_restore_action, Mariadb.py_max]

/-- Witness for C8 amended at a concrete two-record store. -/
theorem c8_amended_first_maximum_witness :
    Mariadb.py_max [("/data/db/old", 1), ("/data/db/new", 2)]
      = some ("/data/db/new", 2) := by
  obtain ⟨m, hm, _, _, _⟩ :=
    c8_amended_first_maximum ("/data/db/old", 1) [("/data/db/new", 2)]
  have hv : (some m : Option (String × Nat)) = some ("/data/db/new", 2) :=
    hm.symm.trans (by decide)
  injection hv with hv'
  rw [hm, hv']

end Mariadb
